import Mathlib

/-!
Shallow embedding of the recommendation subsystem of the `refrain` repository
(`backend/src/services/spotifyService.ts` and the recommendation route handler),
together with theorems settling the frozen claims about it.

Numbers that are JavaScript floats in the source are modelled as rationals
(the source only adds, subtracts, multiplies, divides and compares them, and
every constant in the source is a decimal literal, so the rational model is
exact).  External HTTP collaborators (Spotify catalog, Last.fm similarity
service) are modelled as oracle functions supplied as parameters; the
`Math.random`-driven shuffle/sort of the final ranking is modelled as an
arbitrary permutation parameter.
-/

namespace Refrain

/-- An `(id, name)` artist reference as it appears on a track object. -/
structure ArtistRef where
  id : String
  name : String
deriving DecidableEq, Repr

/-- A catalog track snapshot (`SpotifyTrack` in `types/spotify.ts`); only the
fields the recommendation subsystem reads are modelled. -/
structure SpotifyTrack where
  id : String
  name : String
  artists : List ArtistRef
  popularity : Int
  duration_ms : Nat
deriving DecidableEq, Repr

/-- A full artist object (`SpotifyArtist`) with genre tags and popularity. -/
structure SpotifyArtist where
  id : String
  name : String
  genres : List String
  popularity : Nat
deriving DecidableEq, Repr

/-- An audio feature vector (`AudioFeatures`), numeric fields as rationals. -/
structure AudioFeatures where
  id : String
  danceability : ℚ
  energy : ℚ
  valence : ℚ
  acousticness : ℚ
  instrumentalness : ℚ
  liveness : ℚ
  speechiness : ℚ
  tempo : ℚ
  key : Int
  loudness : ℚ
  mode : Int
  duration_ms : Nat
  time_signature : Int
deriving DecidableEq, Repr

/-- One entry of `TasteProfile.preferredGenres`. -/
structure GenreWeight where
  genre : String
  weight : Nat
deriving DecidableEq, Repr

/-- One entry of `TasteProfile.preferredArtists`. -/
structure ArtistWeight where
  artistId : String
  weight : Nat
deriving DecidableEq, Repr

/-- The derived `TasteProfile` record. -/
structure TasteProfile where
  avgDanceability : ℚ
  avgEnergy : ℚ
  avgValence : ℚ
  avgAcousticness : ℚ
  avgInstrumentalness : ℚ
  avgLiveness : ℚ
  avgSpeechiness : ℚ
  avgTempo : ℚ
  preferredGenres : List GenreWeight
  preferredArtists : List ArtistWeight
deriving DecidableEq, Repr

/-- The `sourceType` string union of `TrackRecommendation`. -/
inductive SourceType where
  | contentBased
  | collaborative
  | hybrid
  | custom
deriving DecidableEq, Repr

/-- A scored recommendation (`TrackRecommendation`). -/
structure TrackRecommendation where
  track : SpotifyTrack
  audioFeatures : AudioFeatures
  similarityScore : ℚ
  reasons : List String
  sourceType : SourceType
deriving DecidableEq, Repr

/-- The listener's raw corpus plus derived taste profile (`UserMusicProfile`);
playlist data is not read by any claimed operation and is omitted. -/
structure UserMusicProfile where
  likedTracks : List SpotifyTrack
  recentTracks : List SpotifyTrack
  userTasteProfile : TasteProfile
deriving Repr

/- ### Similarity scorer (`calculateAudioSimilarity`, lines 1303-1333) -/

/-- `Math.abs` on the rational model of JavaScript numbers. -/
def qabs (x : ℚ) : ℚ := if x < 0 then -x else x

/-- The fixed per-feature weight table of `calculateAudioSimilarity`
(the `weights` object literal, in source order). -/
def simWeights : List (String × ℚ) :=
  [ ("danceability", 15/100),
    ("energy", 15/100),
    ("valence", 15/100),
    ("acousticness", 10/100),
    ("instrumentalness", 5/100),
    ("liveness", 5/100),
    ("speechiness", 5/100),
    ("tempo", 10/100) ]

/-- `userTaste[`avg${capitalize(feature)}`]`: the profile value looked up for a
feature name (`none` models the JavaScript `undefined` for unknown keys). -/
def tasteValue (u : TasteProfile) : String → Option ℚ
  | "danceability" => some u.avgDanceability
  | "energy" => some u.avgEnergy
  | "valence" => some u.avgValence
  | "acousticness" => some u.avgAcousticness
  | "instrumentalness" => some u.avgInstrumentalness
  | "liveness" => some u.avgLiveness
  | "speechiness" => some u.avgSpeechiness
  | "tempo" => some u.avgTempo
  | _ => none

/-- The track-side value for a feature name: `tempo` is divided by 200, every
other feature is read directly from the vector. -/
def featureValue (f : AudioFeatures) : String → Option ℚ
  | "danceability" => some f.danceability
  | "energy" => some f.energy
  | "valence" => some f.valence
  | "acousticness" => some f.acousticness
  | "instrumentalness" => some f.instrumentalness
  | "liveness" => some f.liveness
  | "speechiness" => some f.speechiness
  | "tempo" => some (f.tempo / 200)
  | _ => none

/-- `calculateAudioSimilarity`: accumulates `(1 - |userValue - trackValue|) * weight`
and the total weight over the features for which both sides are defined, and
returns `totalSimilarity / totalWeight` (or 0 when no weight accumulated). -/
def calculateAudioSimilarity (u : TasteProfile) (f : AudioFeatures) : ℚ :=
  let step := fun (acc : ℚ × ℚ) ((feature, weight) : String × ℚ) =>
    match tasteValue u feature, featureValue f feature with
    | some userValue, some trackValue =>
        (acc.1 + (1 - qabs (userValue - trackValue)) * weight, acc.2 + weight)
    | _, _ => acc
  let totals := simWeights.foldl step (0, 0)
  if 0 < totals.2 then totals.1 / totals.2 else 0

/- ### Taste profile calculator (`calculateTasteProfile`, lines 1101-1166) -/

/-- The insertion-ordered `genreCount` accumulator: one genre occurrence of an
artist with popularity `p` either bumps the existing entry or appends a new one
(`genreCount[genre] = (genreCount[genre] || 0) + artist.popularity`). -/
def addGenre (p : Nat) (acc : List GenreWeight) (g : String) : List GenreWeight :=
  if acc.any (fun e => e.genre = g) then
    acc.map (fun e => if e.genre = g then ⟨e.genre, e.weight + p⟩ else e)
  else acc ++ [⟨g, p⟩]

/-- The full `genreCount` map built over the top artists, as an
insertion-ordered association list (JavaScript string-keyed objects preserve
insertion order under `Object.entries`). -/
def genreCounts (topArtists : List SpotifyArtist) : List GenreWeight :=
  topArtists.foldl (fun acc a => a.genres.foldl (addGenre a.popularity) acc) []

/-- Stable insertion of one entry into a weight-descending list, matching the
stable JavaScript `sort((a, b) => b.weight - a.weight)`: an entry moves ahead
only of strictly lighter entries. -/
def insertDescBy (w : GenreWeight) : List GenreWeight → List GenreWeight
  | [] => [w]
  | x :: xs => if x.weight < w.weight then w :: x :: xs else x :: insertDescBy w xs

/-- Stable weight-descending sort (model of the `Array.prototype.sort` call on
the genre entries; the comparator is consistent, so the result is the stable
descending ordering). -/
def sortByWeightDesc (l : List GenreWeight) : List GenreWeight :=
  l.foldr insertDescBy []

/-- `calculateTasteProfile`: averages the resolved feature vectors, or returns
the documented neutral default profile when none resolve; builds
`preferredGenres` and `preferredArtists` from the top artists.  The feature
store is the `audioFeatures` map, modelled as a lookup function. -/
def calculateTasteProfile (tracks : List SpotifyTrack)
    (audioFeatures : String → Option AudioFeatures)
    (topArtists : List SpotifyArtist) : TasteProfile :=
  let validFeatures := tracks.filterMap (fun t => audioFeatures t.id)
  if validFeatures.length = 0 then
    { avgDanceability := 1/2
      avgEnergy := 1/2
      avgValence := 1/2
      avgAcousticness := 1/2
      avgInstrumentalness := 1/10
      avgLiveness := 2/10
      avgSpeechiness := 1/10
      avgTempo := 120
      preferredGenres :=
        ((topArtists.take 10).flatMap
          (fun a => a.genres.map (fun g => ⟨g, a.popularity⟩))).take 10
      preferredArtists :=
        (topArtists.map (fun a => ⟨a.id, a.popularity⟩)).take 20 }
  else
    let n : ℚ := validFeatures.length
    { avgDanceability := (validFeatures.map (fun f => f.danceability)).sum / n
      avgEnergy := (validFeatures.map (fun f => f.energy)).sum / n
      avgValence := (validFeatures.map (fun f => f.valence)).sum / n
      avgAcousticness := (validFeatures.map (fun f => f.acousticness)).sum / n
      avgInstrumentalness := (validFeatures.map (fun f => f.instrumentalness)).sum / n
      avgLiveness := (validFeatures.map (fun f => f.liveness)).sum / n
      avgSpeechiness := (validFeatures.map (fun f => f.speechiness)).sum / n
      avgTempo := (validFeatures.map (fun f => f.tempo)).sum / n
      preferredGenres := (sortByWeightDesc (genreCounts topArtists)).take 10
      preferredArtists :=
        (topArtists.map (fun a => ⟨a.id, a.popularity⟩)).take 20 }

/- ### Catalog client operations (`getSpotifyRecommendations`, `getAudioFeatures`) -/

/-- The parameter object sent to the catalog's seeded-recommendation endpoint;
an absent (`none`) seed field models a key never set on the `params` object. -/
structure RecRequest where
  limit : Nat
  seed_tracks : Option (List String)
  seed_artists : Option (List String)
  seed_genres : Option (List String)
  targets : List (String × ℚ)
deriving DecidableEq, Repr

/-- `some l` when the list is non-empty, `none` otherwise: a seed key is set on
the params object exactly when its (truthy) slice is non-empty. -/
def seedField (l : List String) : Option (List String) :=
  if l = [] then none else some l

/-- The audio-feature-target loop of `getSpotifyRecommendations`: a non-`tempo`
target outside `[0, 1]` is dropped (logged, not sent); every kept target is
renamed `target_<key>`. -/
def processTargets (o : Option (List (String × ℚ))) : List (String × ℚ) :=
  (o.getD []).foldl
    (fun acc kv =>
      if kv.1 ≠ "tempo" ∧ (kv.2 < 0 ∨ 1 < kv.2) then acc
      else acc ++ [("target_" ++ kv.1, kv.2)]) []

/-- The `seedTracks` block of `getSpotifyRecommendations`: a (truthy) non-empty
list contributes its first 5 entries. -/
def tracksSelOf (seedTracks : Option (List String)) : List String :=
  match seedTracks with
  | some l => if l ≠ [] then l.take 5 else []
  | none => []

/-- The `seedArtists`/`seedGenres` blocks of `getSpotifyRecommendations` (both
have the same shape): a non-empty list is admitted only while the running seed
total is below 5, and is cut to the remaining room. -/
def fillSelOf (seeds : Option (List String)) (used : Nat) : List String :=
  match seeds with
  | some l => if l ≠ [] ∧ used < 5 then l.take (5 - used) else []
  | none => []

/-- `getSpotifyRecommendations` (lines 696-750): assembles the seeded request.
Seed tracks are capped at 5; artists and genres fill only the remaining room of
the combined cap of 5.  With zero total seeds the call throws before
`makeRequest` is reached: `Except.error` models that rejection, and the request
object is built (and would be sent) only in the `Except.ok` case. -/
def getSpotifyRecommendations (seedTracks seedArtists seedGenres : Option (List String))
    (audioFeatureTargets : Option (List (String × ℚ))) (limit : Nat) :
    Except String RecRequest :=
  let tracksSel := tracksSelOf seedTracks
  let totalSeeds1 := tracksSel.length
  let artistsSel := fillSelOf seedArtists totalSeeds1
  let totalSeeds2 := totalSeeds1 + artistsSel.length
  let genresSel := fillSelOf seedGenres totalSeeds2
  let totalSeeds3 := totalSeeds2 + genresSel.length
  if totalSeeds3 = 0 then
    Except.error "Spotify recommendations API requires at least one seed (track, artist, or genre)"
  else
    Except.ok
      { limit := min limit 100
        seed_tracks := seedField tracksSel
        seed_artists := seedField artistsSel
        seed_genres := seedField genresSel
        targets := processTargets audioFeatureTargets }

/-- `getAudioFeatures` (lines 610-631): the id list is silently truncated to its
first 100 entries (`trackIds.slice(0, 100)`) and sent; the returned pair exposes
the ids actually put on the wire alongside the call's result.  An oracle value
of `none` models a transport failure, re-thrown as the descriptive error; on
success the `null` entries of the response are filtered out. -/
def getAudioFeatures (oracle : List String → Option (List (Option AudioFeatures)))
    (trackIds : List String) : List String × Except String (List AudioFeatures) :=
  let sent := trackIds.take 100
  (sent,
    match oracle sent with
    | none => Except.error "Failed to fetch audio features"
    | some response => Except.ok (response.filterMap id))

/- ### Candidate generator (`getLastFmRecommendations`, lines 752-935, and
`getSearchBasedRecommendations`, lines 937-986) -/

/-- A similar-artist entry returned by the similarity service (`LastFmArtist`);
`matchScore` is `none` when the `match` field is absent. -/
structure LastFmArtist where
  name : String
  matchScore : Option ℚ
deriving DecidableEq, Repr

/-- A similar-track entry returned by the similarity service (`LastFmTrack`). -/
structure LastFmTrack where
  name : String
  artistName : String
  matchScore : Option ℚ
deriving DecidableEq, Repr

/-- The external collaborators consumed by the candidate generator, as pure
oracles: each function maps the request parameters the source sends to the
response the service returns.  `trackFeatures` returning `none` models a failed
per-track feature fetch (caught in the source). -/
structure Oracles where
  similarArtists : String → Nat → List LastFmArtist
  similarTracks : String → String → Nat → List LastFmTrack
  searchTracks : String → Nat → List SpotifyTrack
  trackFeatures : String → Option AudioFeatures

/-- ASCII lowercasing of one character (`String.toLowerCase` on the name
alphabet actually used for dedup keys), written structurally. -/
def charLower (c : Char) : Char :=
  if 'A' ≤ c ∧ c ≤ 'Z' then Char.ofNat (c.toNat + 32) else c

/-- `.toLowerCase()` as a structural map over the character data. -/
def jsToLower (s : String) : String := ⟨s.data.map charLower⟩

/-- The dedup key of a catalog track:
`` `${track.artists[0]?.name}-${track.name}`.toLowerCase() `` (an empty artist
list interpolates as the string `undefined`). -/
def trackKey (t : SpotifyTrack) : String :=
  jsToLower ((match t.artists.head? with
    | some a => a.name
    | none => "undefined") ++ "-" ++ t.name)

/-- The dedup key built from a similarity-service track entry:
`` `${lastFmTrack.artist.name}-${lastFmTrack.name}`.toLowerCase() ``. -/
def lastFmTrackKey (lt : LastFmTrack) : String :=
  jsToLower (lt.artistName ++ "-" ++ lt.name)

/-- `Math.round` (half rounds up) on the rational model. -/
def qRound (x : ℚ) : Int := ⌊x + 1/2⌋

/-- `lastFmArtist.match || 0.5`: an absent or zero (falsy) match score becomes
0.5 in the combined similarity score. -/
def matchOr (m : Option ℚ) : ℚ :=
  match m with
  | none => 1/2
  | some x => if x = 0 then 1/2 else x

/-- `(lastFmArtist.match || 0) * 100` as rendered into a reason string. -/
def matchPct (m : Option ℚ) : Int := qRound ((m.getD 0) * 100)

/-- The substituted neutral feature vector used when a candidate's features
cannot be fetched (lines 799-814 and 872-887). -/
def mockAudioFeatures (t : SpotifyTrack) : AudioFeatures :=
  { id := t.id
    danceability := 1/2
    energy := 1/2
    valence := 1/2
    acousticness := 1/2
    instrumentalness := 1/10
    liveness := 2/10
    speechiness := 1/10
    tempo := 120
    key := 0
    loudness := -10
    mode := 1
    duration_ms := if t.duration_ms = 0 then 180000 else t.duration_ms
    time_signature := 4 }

/-- The search query `artist:"<name>"` used to resolve a similar artist to
catalog tracks. -/
def artistQuery (name : String) : String := "artist:\"" ++ name ++ "\""

/-- The exact search query `artist:"<artist>" track:"<track>"` used to resolve
a similarity-service track to one catalog track. -/
def exactQuery (artistName trackName : String) : String :=
  "artist:\"" ++ artistName ++ "\" track:\"" ++ trackName ++ "\""

/-- The genre-fallback search query `genre:"<genre>" year:2020-2024`. -/
def genreQuery (genre : String) : String :=
  "genre:\"" ++ genre ++ "\" year:2020-2024"

/-- `findArtistNameById` (lines 921-935): scans the liked tracks, then the
recent tracks, for an artist entry carrying the id, returning its display name;
`none` models the `null` returned when no entry matches. -/
def findArtistNameById (artistId : String) (p : UserMusicProfile) : Option String :=
  match p.likedTracks.findSome?
      (fun t => (t.artists.find? (fun a => a.id = artistId)).map (fun a => a.name)) with
  | some n => some n
  | none =>
    p.recentTracks.findSome?
      (fun t => (t.artists.find? (fun a => a.id = artistId)).map (fun a => a.name))

/-- The mutable state of one `getLastFmRecommendations` run: the `seenTracks`
set (as a list of keys) and the `recommendations` array, in push order. -/
structure GenState where
  seen : List String
  recs : List TrackRecommendation
deriving Repr

/-- A `for … of` loop whose body may `break` after processing an item: the body
returns the updated state and whether its trailing break condition fired. -/
def runBreakAfter {α : Type} (f : α → GenState → GenState × Bool) :
    List α → GenState → GenState
  | [], st => st
  | x :: xs, st =>
    let p := f x st
    if p.2 then p.1 else runBreakAfter f xs p.1

/-- A `for … of` loop that checks `recommendations.length >= limit` at the top
of every iteration and breaks before processing the item. -/
def runBreakBefore {α : Type} (limit : Nat) (f : α → GenState → GenState) :
    List α → GenState → GenState
  | [], st => st
  | x :: xs, st =>
    if limit ≤ st.recs.length then st else runBreakBefore limit f xs (f x st)

/-- The innermost collaborative loop body (lines 787-832): one catalog track
from the artist-constrained search.  An already-seen key is skipped with no
break check; otherwise the key is recorded, features are fetched (or the
neutral vector substituted), the candidate is pushed with score
`(match || 0.5) * audioScore`, and the loop breaks once `limit` is reached. -/
def phase1TrackStep (limit : Nat) (taste : TasteProfile) (orc : Oracles)
    (artistName : String) (lfa : LastFmArtist) (t : SpotifyTrack)
    (st : GenState) : GenState × Bool :=
  let key := trackKey t
  if st.seen.contains key then (st, false)
  else
    let feats := (orc.trackFeatures t.id).getD (mockAudioFeatures t)
    let score := calculateAudioSimilarity taste feats
    let st' : GenState :=
      { seen := key :: st.seen
        recs := st.recs ++
          [{ track := t
             audioFeatures := feats
             similarityScore := matchOr lfa.matchScore * score
             reasons :=
               ["Similar to " ++ artistName ++ " (" ++
                  toString (matchPct lfa.matchScore) ++ "% match)",
                "Discovered via Last.fm recommendations"]
             sourceType := SourceType.collaborative }] }
    (st', limit ≤ st'.recs.length)

/-- The middle collaborative loop body (lines 783-834): one similar artist; its
name seeds a limit-5 catalog search whose results feed `phase1TrackStep`. -/
def phase1SimilarArtistStep (limit : Nat) (taste : TasteProfile) (orc : Oracles)
    (artistName : String) (lfa : LastFmArtist) (st : GenState) : GenState × Bool :=
  let items := orc.searchTracks (artistQuery lfa.name) 5
  let st' := runBreakAfter (phase1TrackStep limit taste orc artistName lfa) items st
  (st', limit ≤ st'.recs.length)

/-- The outer collaborative loop body (lines 775-836): one preferred artist.
An id with no resolvable (truthy) display name is skipped (`continue`);
otherwise up to 10 similar artists are requested and the top 3 are processed. -/
def phase1ArtistStep (limit : Nat) (taste : TasteProfile) (orc : Oracles)
    (profile : UserMusicProfile) (aw : ArtistWeight) (st : GenState) :
    GenState × Bool :=
  match findArtistNameById aw.artistId profile with
  | none => (st, false)
  | some artistName =>
    if artistName = "" then (st, false)
    else
      let similars := (orc.similarArtists artistName 10).take 3
      let st' :=
        runBreakAfter (phase1SimilarArtistStep limit taste orc artistName) similars st
      (st', limit ≤ st'.recs.length)

/-- The inner track-similarity loop body (lines 853-904): one similarity-service
track.  Its name key is checked against (and added to) the seen set, then an
exact limit-1 catalog search resolves it; the first hit, if any, is pushed. -/
def phase2LastFmTrackStep (taste : TasteProfile) (orc : Oracles)
    (origArtist origTrack : String) (lt : LastFmTrack) (st : GenState) : GenState :=
  let key := lastFmTrackKey lt
  if st.seen.contains key then st
  else
    let st1 : GenState := { st with seen := key :: st.seen }
    match orc.searchTracks (exactQuery lt.artistName lt.name) 1 with
    | [] => st1
    | spotifyTrack :: _ =>
      let feats := (orc.trackFeatures spotifyTrack.id).getD (mockAudioFeatures spotifyTrack)
      let score := calculateAudioSimilarity taste feats
      { st1 with
        recs := st1.recs ++
          [{ track := spotifyTrack
             audioFeatures := feats
             similarityScore := matchOr lt.matchScore * score
             reasons :=
               ["Similar to \"" ++ origTrack ++ "\" by " ++ origArtist ++ " (" ++
                  toString (matchPct lt.matchScore) ++ "% match)",
                "Track-based Last.fm recommendation"]
             sourceType := SourceType.contentBased }] }

/-- `track.artists[0]?.name` with the JavaScript `undefined` collapsed to the
falsy empty string (both skip the track in the loop below). -/
def headArtistName (t : SpotifyTrack) : String :=
  match t.artists.head? with
  | some a => a.name
  | none => ""

/-- The outer track-similarity loop body (lines 842-905): one of the listener's
3 most-liked tracks; a missing (falsy) artist or track name skips it, otherwise
up to 5 similar tracks are requested and processed. -/
def phase2LikedStep (limit : Nat) (taste : TasteProfile) (orc : Oracles)
    (t : SpotifyTrack) (st : GenState) : GenState :=
  if headArtistName t = "" ∨ t.name = "" then st
  else
    runBreakBefore limit (phase2LastFmTrackStep taste orc (headArtistName t) t.name)
      (orc.similarTracks (headArtistName t) t.name 5) st

/-- The full candidate-accumulation phase of `getLastFmRecommendations`
(lines 764-906): the seen set is seeded with the liked and recent track keys,
the collaborative phase runs over the top-5 preferred artists, and the
track-similarity extension runs only when fewer than `limit` candidates were
produced. -/
def lastFmCandidates (profile : UserMusicProfile) (orc : Oracles) (limit : Nat) :
    GenState :=
  let st0 : GenState :=
    { seen := profile.likedTracks.map trackKey ++ profile.recentTracks.map trackKey
      recs := [] }
  let taste := profile.userTasteProfile
  let st1 :=
    runBreakAfter (phase1ArtistStep limit taste orc profile)
      (taste.preferredArtists.take 5) st0
  if st1.recs.length < limit then
    runBreakBefore limit (phase2LikedStep limit taste orc)
      (profile.likedTracks.take 3) st1
  else st1

/-- The fixed feature vector attached to every genre-fallback candidate
(lines 958-973). -/
def genreFallbackFeatures (t : SpotifyTrack) : AudioFeatures :=
  { id := t.id
    danceability := 7/10
    energy := 8/10
    valence := 6/10
    acousticness := 3/10
    instrumentalness := 1/10
    liveness := 2/10
    speechiness := 1/10
    tempo := 120
    key := 0
    loudness := -10
    mode := 1
    duration_ms := if t.duration_ms = 0 then 180000 else t.duration_ms
    time_signature := 4 }

/-- One pushed genre-fallback recommendation (fixed score 0.75). -/
def genreRec (genre : String) (t : SpotifyTrack) : TrackRecommendation :=
  { track := t
    audioFeatures := genreFallbackFeatures t
    similarityScore := 75/100
    reasons := ["Based on your interest in " ++ genre, "Genre-based discovery"]
    sourceType := SourceType.contentBased }

/-- A `for … of` loop over plain recommendation lists with the
`length >= limit` break at the top of each iteration (the fallback generator
keeps no seen set). -/
def runCapped {α : Type} (limit : Nat)
    (f : α → List TrackRecommendation → List TrackRecommendation) :
    List α → List TrackRecommendation → List TrackRecommendation
  | [], acc => acc
  | x :: xs, acc =>
    if limit ≤ acc.length then acc else runCapped limit f xs (f x acc)

/-- `getSearchBasedRecommendations` (lines 937-986): for each of the top 3
preferred genres, a year-filtered limit-10 search; every returned track is
pushed (no seen set, no liked/recent exclusion) until `limit` is reached. -/
def getSearchBasedRecommendations (profile : UserMusicProfile) (orc : Oracles)
    (limit : Nat) : List TrackRecommendation :=
  runCapped limit
    (fun gw acc =>
      runCapped limit (fun t acc2 => acc2 ++ [genreRec gw.genre t])
        (orc.searchTracks (genreQuery gw.genre) 10) acc)
    (profile.userTasteProfile.preferredGenres.take 3) []

/-- `getLastFmRecommendations` (lines 753-919): with the similarity service
unconfigured the genre-search fallback runs; otherwise the accumulated
candidates are shuffled and sorted by jittered score — both `Math.random`-driven
passes modelled by the `shuffle` parameter — and truncated to `limit`. -/
def getLastFmRecommendations (lastFmConfigured : Bool)
    (profile : UserMusicProfile) (orc : Oracles)
    (shuffle : List TrackRecommendation → List TrackRecommendation)
    (limit : Nat) : List TrackRecommendation :=
  if lastFmConfigured = false then getSearchBasedRecommendations profile orc limit
  else (shuffle (lastFmCandidates profile orc limit).recs).take limit

/- ### The `GET /recommendations` route handler (`src/unnamed/part_003`,
lines 207-322) -/

/-- The `stats` block of the recommendations response. -/
structure RecStats where
  totalRecommendations : Nat
  contentBasedCount : Nat
  collaborativeCount : Nat
  avgSimilarityScore : ℚ
deriving DecidableEq, Repr

/-- The JSON payload the handler sends back. -/
structure HandlerResponse where
  status : Nat
  success : Bool
  recommendations : List TrackRecommendation
  userTasteProfile : Option TasteProfile
  errorMessage : Option String
deriving DecidableEq, Repr

/-- The single fixed placeholder recommendation substituted when the strategy
pipeline throws (handler lines 239-274). -/
def mockRecommendation : TrackRecommendation :=
  { track :=
      { id := "mock1"
        name := "Discover Weekly Mock Track 1"
        artists := [⟨"artist1", "Mock Artist 1"⟩]
        popularity := 75
        duration_ms := 200000 }
    audioFeatures :=
      { id := "mock1"
        danceability := 7/10
        energy := 8/10
        valence := 6/10
        acousticness := 3/10
        instrumentalness := 1/10
        liveness := 2/10
        speechiness := 1/10
        tempo := 120
        key := 0
        loudness := -10
        mode := 1
        duration_ms := 200000
        time_signature := 4 }
    similarityScore := 85/100
    reasons := ["Mock recommendation - Last.fm service unavailable"]
    sourceType := SourceType.contentBased }

/-- The hardcoded "meaningful default" taste profile the handler falls back to
when the second profile build fails (handler lines 278-295). -/
def handlerDefaultTaste : TasteProfile :=
  { avgDanceability := 7/10
    avgEnergy := 8/10
    avgValence := 6/10
    avgAcousticness := 3/10
    avgInstrumentalness := 1/10
    avgLiveness := 2/10
    avgSpeechiness := 1/10
    avgTempo := 120
    preferredGenres := [⟨"pop", 80⟩, ⟨"indie", 70⟩]
    preferredArtists := [⟨"artist1", 85⟩, ⟨"artist2", 75⟩] }

/-- The `GET /recommendations` handler.  `recResult` is the outcome of the
`try` block (profile build followed by `getLastFmRecommendations`): `ok` with
whatever list the generator returned, or `error` when any awaited step threw.
`profileResult` is the outcome of the second profile build used for the
response's taste-profile field.  An absent session token short-circuits to a
401 error; otherwise the handler always answers 200 with `success: true`. -/
def recommendationsHandler (session : Option String)
    (recResult : Except String (List TrackRecommendation))
    (profileResult : Except String TasteProfile) : HandlerResponse :=
  match session with
  | none =>
    { status := 401
      success := false
      recommendations := []
      userTasteProfile := none
      errorMessage := some "Not authenticated" }
  | some _ =>
    let formattedRecommendations :=
      match recResult with
      | Except.ok recs => recs
      | Except.error _ => [mockRecommendation]
    let userTasteProfile :=
      match profileResult with
      | Except.ok p => p
      | Except.error _ => handlerDefaultTaste
    { status := 200
      success := true
      recommendations := formattedRecommendations
      userTasteProfile := some userTasteProfile
      errorMessage := none }

/-- The `stats` block the handler attaches (lines 314-319). -/
def handlerStats (recs : List TrackRecommendation) : RecStats :=
  { totalRecommendations := recs.length
    contentBasedCount := recs.length
    collaborativeCount := 0
    avgSimilarityScore := 85/100 }

/- ### Characterisation helpers used only to state properties -/

/-- The number of seed values set on an assembled recommendation request. -/
def seedCount (r : RecRequest) : Nat :=
  (r.seed_tracks.getD []).length + (r.seed_artists.getD []).length +
    (r.seed_genres.getD []).length

/-- Boolean test that a genre-weight list is sorted descending by weight. -/
def isSortedDescW : List GenreWeight → Bool
  | [] => true
  | [_] => true
  | a :: b :: rest => decide (b.weight ≤ a.weight) && isSortedDescW (b :: rest)

/-- The total weight the spec's accumulation rule assigns to a genre: every
occurrence of the tag on a top artist contributes that artist's popularity. -/
def genreTotal (topArtists : List SpotifyArtist) (g : String) : Nat :=
  (topArtists.map (fun a => a.genres.count g * a.popularity)).sum

/-- The dedup key of a scored recommendation, i.e. of its underlying track. -/
def recKey (r : TrackRecommendation) : String := trackKey r.track

/-- The genre tags of a genre-weight list, in order. -/
def genresOf (l : List GenreWeight) : List String := l.map (fun e => e.genre)

/-- The weight recorded for a genre in an association list (0 when absent),
reading the first matching entry like a JavaScript object key lookup. -/
def genreWeightOf (acc : List GenreWeight) (g : String) : Nat :=
  match acc.find? (fun e => e.genre = g) with
  | some e => e.weight
  | none => 0

/-- The weight of the first entry of a genre-weight list, or a default. -/
def headW (l : List GenreWeight) (d : Nat) : Nat :=
  match l with
  | [] => d
  | x :: _ => x.weight

/-- The dedup invariant of one `getLastFmRecommendations` run with the seen set
pre-seeded from `seen0` (the liked/recent track keys): the pushed candidates
have pairwise-distinct keys, every pushed key has been recorded as seen, the
pre-seeded keys stay seen, and no pushed key is a pre-seeded key. -/
def SeenInv (seen0 : List String) (st : GenState) : Prop :=
  (st.recs.map recKey).Nodup ∧
  (∀ r ∈ st.recs, recKey r ∈ st.seen) ∧
  (∀ k ∈ seen0, k ∈ st.seen) ∧
  (∀ r ∈ st.recs, recKey r ∉ seen0)

/- ### Concrete instances used by counterexamples and witnesses -/

/-- An Oracles instance whose every service call yields nothing. -/
def emptyOracles : Oracles :=
  { similarArtists := fun _ _ => []
    similarTracks := fun _ _ _ => []
    searchTracks := fun _ _ => []
    trackFeatures := fun _ => none }

/-- A plain catalog track used to exercise the similarity scorer. -/
def sampleTrack : SpotifyTrack :=
  { id := "t1", name := "Song", artists := [⟨"a1", "Artist"⟩],
    popularity := 50, duration_ms := 200000 }

/-- A 101-entry id batch for the feature-fetch limit claim. -/
def bigIdBatch : List String := List.replicate 101 "t"

/-- Liked-track list for the C4 witness scenario (three tracks, none with a
resolvable feature vector). -/
def c4tracks : List SpotifyTrack :=
  [ ⟨"t1", "Song A", [⟨"a1", "Artist A"⟩], 10, 1000⟩,
    ⟨"t2", "Song B", [⟨"a1", "Artist A"⟩], 20, 1000⟩,
    ⟨"t3", "Song C", [⟨"a2", "Artist B"⟩], 30, 1000⟩ ]

/-- A feature store with no entries. -/
def c4features : String → Option AudioFeatures := fun _ => none

/-- Top-artist list for the C4 witness scenario. -/
def c4artists : List SpotifyArtist := [⟨"a1", "Artist A", ["pop"], 80⟩]

/-- Two top artists whose flat-mapped fallback genre list is not
weight-descending (popularity 10 before popularity 90). -/
def c8artists : List SpotifyArtist :=
  [⟨"a1", "A", ["ambient"], 10⟩, ⟨"a2", "B", ["breakcore"], 90⟩]

/-- Top artists with overlapping and repeated-weight genre tags, used to
exercise the accumulate-rank-truncate path with a non-trivial instance. -/
def c8mainArtists : List SpotifyArtist :=
  [ ⟨"a1", "A", ["pop", "rock"], 40⟩,
    ⟨"a2", "B", ["rock"], 50⟩,
    ⟨"a3", "C", ["jazz"], 60⟩ ]

/-- A resolved feature vector (all mid-range) for the C8 witness. -/
def c8vector : AudioFeatures :=
  { id := "t1", danceability := 1/2, energy := 1/2, valence := 1/2,
    acousticness := 1/2, instrumentalness := 1/10, liveness := 2/10,
    speechiness := 1/10, tempo := 120, key := 0, loudness := -10, mode := 1,
    duration_ms := 1000, time_signature := 4 }

/-- A feature store resolving every id to the mid-range vector. -/
def c8features : String → Option AudioFeatures := fun _ => some c8vector

/-- A taste profile whose only role is to carry preferred genres or artists
into a generator run; the averages are the neutral defaults. -/
def plainTaste (genres : List GenreWeight) (artists : List ArtistWeight) :
    TasteProfile :=
  { avgDanceability := 1/2, avgEnergy := 1/2, avgValence := 1/2,
    avgAcousticness := 1/2, avgInstrumentalness := 1/10, avgLiveness := 2/10,
    avgSpeechiness := 1/10, avgTempo := 120,
    preferredGenres := genres, preferredArtists := artists }

/-- A listener profile whose top preferred genres are two search genres and
whose corpus is empty: input of the fallback-duplication counterexample. -/
def dupProfile : UserMusicProfile :=
  { likedTracks := []
    recentTracks := []
    userTasteProfile := plainTaste [⟨"g1", 5⟩, ⟨"g2", 4⟩] [] }

/-- Oracles whose every catalog search returns the same single track, so two
genre searches of the fallback path both surface it. -/
def dupOracles : Oracles :=
  { similarArtists := fun _ _ => []
    similarTracks := fun _ _ _ => []
    searchTracks := fun _ _ => [⟨"t0", "Track Zero", [⟨"a0", "Zero"⟩], 10, 1000⟩]
    trackFeatures := fun _ => none }

/-- The liked track of the C2 witness listener. -/
def w2liked : SpotifyTrack := ⟨"L1", "Liked Song", [⟨"a1", "Artist A"⟩], 10, 1000⟩

/-- The C2 witness listener: one liked track and one preferred artist that
resolves to `Artist A` through it. -/
def w2profile : UserMusicProfile :=
  { likedTracks := [w2liked]
    recentTracks := []
    userTasteProfile := plainTaste [] [⟨"a1", 50⟩] }

/-- The catalog track surfaced for the similar artist of the C2 witness. -/
def w2found : SpotifyTrack := ⟨"B1", "Song B", [⟨"a2", "Artist B"⟩], 20, 1000⟩

/-- C2 witness oracles: `Artist A` has one similar artist `Artist B`, whose
artist-constrained search yields one track; everything else is empty. -/
def w2oracles : Oracles :=
  { similarArtists := fun name _ =>
      if name = "Artist A" then [⟨"Artist B", some (9/10)⟩] else []
    similarTracks := fun _ _ _ => []
    searchTracks := fun q _ =>
      if q = artistQuery "Artist B" then [w2found] else []
    trackFeatures := fun _ => none }

/-- The C10 witness listener: the corpus names only artist id `a9`, while the
taste profile prefers the undiscoverable id `a1`. -/
def c10profile : UserMusicProfile :=
  { likedTracks := [⟨"t1", "Song", [⟨"a9", "X"⟩], 10, 1000⟩]
    recentTracks := []
    userTasteProfile := plainTaste [] [⟨"a1", 50⟩] }

/-! ## Theorems -/

/- ### C5: the similarity weight table -/

/-- C5 counterexample: the fixed per-feature weights of
`calculateAudioSimilarity` do not sum to 1.0 as claimed. -/
theorem simWeights_sum_ne_one : (simWeights.map Prod.snd).sum ≠ 1 := by
  simp [simWeights]
  norm_num

/-- C5 (amended): the fixed per-feature weights of `calculateAudioSimilarity`
sum exactly to 0.8 (the score is divided by the accumulated weight, so it is
still a weighted mean). -/
theorem simWeights_sum_eq_four_fifths : (simWeights.map Prod.snd).sum = 4/5 := by
  simp [simWeights]
  norm_num

/- ### C1: range of the similarity score -/

/-- C1: evaluating `calculateAudioSimilarity` on the documented neutral default
taste profile (average tempo 120 BPM) against the substituted neutral feature
vector (tempo 120 BPM) yields exactly −557/40 ≈ −13.9: the raw BPM average is
compared against the 200-normalised track tempo, so the score leaves `[0, 1]`
on ordinary inputs, and the collaborative combination
`(match || 0.5) * audioScore` is negative as well. -/
theorem calculateAudioSimilarity_negative_on_neutral_input :
    calculateAudioSimilarity (calculateTasteProfile [] (fun _ => none) [])
      (mockAudioFeatures sampleTrack) = -557/40 ∧
    calculateAudioSimilarity (calculateTasteProfile [] (fun _ => none) [])
      (mockAudioFeatures sampleTrack) < 0 ∧
    matchOr (some (9/10)) *
      calculateAudioSimilarity (calculateTasteProfile [] (fun _ => none) [])
        (mockAudioFeatures sampleTrack) < 0 := by
  have h : calculateAudioSimilarity (calculateTasteProfile [] (fun _ => none) [])
      (mockAudioFeatures sampleTrack) = -557/40 := by
    simp [calculateAudioSimilarity, calculateTasteProfile, mockAudioFeatures,
      sampleTrack, simWeights, tasteValue, featureValue, qabs]
    norm_num
  refine ⟨h, ?_, ?_⟩
  · rw [h]; norm_num
  · rw [h]; simp [matchOr]; norm_num

/- ### C3: the recommendations route handler -/

/-- C3 counterexample: when the strategy pipeline succeeds with zero candidates
(similarity service unconfigured and genre search empty-handed), the handler
returns a 200 success response whose recommendation list is empty — not the
placeholder set the claim promises. -/
theorem recommendationsHandler_empty_success_counterexample :
    (recommendationsHandler (some "token") (Except.ok [])
        (Except.ok handlerDefaultTaste)).success = true ∧
    (recommendationsHandler (some "token") (Except.ok [])
        (Except.ok handlerDefaultTaste)).status = 200 ∧
    (recommendationsHandler (some "token") (Except.ok [])
        (Except.ok handlerDefaultTaste)).recommendations = [] :=
  ⟨rfl, rfl, rfl⟩

/-- C3 (amended): for authenticated sessions the handler always answers 200
with `success: true` and no error field, and when the strategy pipeline throws
it substitutes the fixed one-element placeholder recommendation; but a pipeline
that merely yields zero candidates produces an empty recommendation list. -/
theorem recommendationsHandler_success_and_placeholder
    (token : String) (recResult : Except String (List TrackRecommendation))
    (profileResult : Except String TasteProfile) (msg : String) :
    (recommendationsHandler (some token) recResult profileResult).status = 200 ∧
    (recommendationsHandler (some token) recResult profileResult).success = true ∧
    (recommendationsHandler (some token) recResult profileResult).errorMessage = none ∧
    (recommendationsHandler (some token) (Except.error msg) profileResult).recommendations
      = [mockRecommendation] ∧
    (recommendationsHandler (some token) (Except.error msg) profileResult).recommendations
      ≠ [] := by
  refine ⟨?_, ?_, ?_, ?_, ?_⟩ <;>
    cases recResult <;> cases profileResult <;> simp [recommendationsHandler]

/- ### C7: the audio-feature batch limit -/

/-- C7 counterexample: a 101-id batch is not rejected — the call succeeds and
only the first 100 ids are put on the wire (silent truncation). -/
theorem getAudioFeatures_no_rejection_counterexample :
    bigIdBatch.length = 101 ∧
    (getAudioFeatures (fun _ => some []) bigIdBatch).1.length = 100 ∧
    (getAudioFeatures (fun _ => some []) bigIdBatch).2 = Except.ok [] := by
  refine ⟨by decide, by decide, rfl⟩

/-- C7 (amended): every audio-feature batch is silently truncated to its first
100 ids before the external call; the only failure the caller can see is a
transport failure of the call itself, never an input-size rejection. -/
theorem getAudioFeatures_truncates_batch
    (oracle : List String → Option (List (Option AudioFeatures)))
    (trackIds : List String) :
    (getAudioFeatures oracle trackIds).1 = trackIds.take 100 ∧
    (getAudioFeatures oracle trackIds).1.length ≤ 100 ∧
    (getAudioFeatures oracle trackIds).2 =
      (match oracle (trackIds.take 100) with
       | none => Except.error "Failed to fetch audio features"
       | some response => Except.ok (response.filterMap id)) := by
  refine ⟨rfl, ?_, rfl⟩
  simpa [getAudioFeatures] using List.length_take_le 100 trackIds

/- ### C6: seeded-recommendation validation -/

/-- Helper: an empty-or-absent seed-track option selects nothing. -/
theorem tracksSelOf_empty (o : Option (List String)) (h : o.getD [] = []) :
    tracksSelOf o = [] := by
  cases o with
  | none => rfl
  | some l => simp_all [tracksSelOf]

/-- Helper: an empty-or-absent artist/genre option selects nothing. -/
theorem fillSelOf_empty (o : Option (List String)) (used : Nat)
    (h : o.getD [] = []) : fillSelOf o used = [] := by
  cases o with
  | none => rfl
  | some l => simp_all [fillSelOf]

/-- Helper: at most 5 seed tracks are selected. -/
theorem tracksSelOf_length_le (o : Option (List String)) :
    (tracksSelOf o).length ≤ 5 := by
  cases o with
  | none => simp [tracksSelOf]
  | some l =>
    simp only [tracksSelOf]
    split
    · simpa using List.length_take_le 5 l
    · simp

/-- Helper: artist/genre seeds fill at most the remaining room below 5. -/
theorem fillSelOf_length_le (o : Option (List String)) (used : Nat) :
    (fillSelOf o used).length ≤ 5 - used := by
  cases o with
  | none => simp [fillSelOf]
  | some l =>
    simp only [fillSelOf]
    split
    · simpa using List.length_take_le (5 - used) l
    · simp

/-- Helper: reading a seed field back off the request recovers the selection. -/
theorem seedField_getD (l : List String) : (seedField l).getD [] = l := by
  by_cases h : l = [] <;> simp [seedField, h]

/-- C6: a seeded-recommendation call with zero total seeds is rejected (before
any request object is built or sent) with the "requires at least one seed"
failure; every accepted call carries between 1 and 5 combined seeds. -/
theorem getSpotifyRecommendations_seed_validation
    (seedTracks seedArtists seedGenres : Option (List String))
    (targets : Option (List (String × ℚ))) (limit : Nat) :
    ((seedTracks.getD [] = [] ∧ seedArtists.getD [] = [] ∧ seedGenres.getD [] = []) →
      getSpotifyRecommendations seedTracks seedArtists seedGenres targets limit =
        Except.error
          "Spotify recommendations API requires at least one seed (track, artist, or genre)") ∧
    (∀ req,
      getSpotifyRecommendations seedTracks seedArtists seedGenres targets limit =
        Except.ok req →
      1 ≤ seedCount req ∧ seedCount req ≤ 5) := by
  constructor
  · rintro ⟨h1, h2, h3⟩
    simp [getSpotifyRecommendations, tracksSelOf_empty _ h1, fillSelOf_empty _ _ h2,
      fillSelOf_empty _ _ h3]
  · intro req hreq
    have hT := tracksSelOf_length_le seedTracks
    have hA := fillSelOf_length_le seedArtists (tracksSelOf seedTracks).length
    have hG := fillSelOf_length_le seedGenres
      ((tracksSelOf seedTracks).length + (fillSelOf seedArtists (tracksSelOf seedTracks).length).length)
    simp only [getSpotifyRecommendations] at hreq
    split at hreq
    · exact absurd hreq (by simp)
    · next hne =>
      have hr : req =
          { limit := min limit 100
            seed_tracks := seedField (tracksSelOf seedTracks)
            seed_artists := seedField (fillSelOf seedArtists (tracksSelOf seedTracks).length)
            seed_genres := seedField (fillSelOf seedGenres
              ((tracksSelOf seedTracks).length +
                (fillSelOf seedArtists (tracksSelOf seedTracks).length).length))
            targets := processTargets targets } := by
        cases hreq; rfl
      rw [hr]
      simp only [seedCount, seedField_getD]
      omega

/-- C6 witness: the zero-seed call is rejected with the descriptive failure,
and a 6-track call is accepted with exactly 5 combined seeds. -/
theorem getSpotifyRecommendations_seed_validation_witness :
    getSpotifyRecommendations none none none none 20 =
      Except.error
        "Spotify recommendations API requires at least one seed (track, artist, or genre)" ∧
    (1 ≤ seedCount ⟨20, some ["s1", "s2", "s3", "s4", "s5"], none, none, []⟩ ∧
      seedCount ⟨20, some ["s1", "s2", "s3", "s4", "s5"], none, none, []⟩ ≤ 5) :=
  ⟨(getSpotifyRecommendations_seed_validation none none none none 20).1
      (by decide),
    (getSpotifyRecommendations_seed_validation
        (some ["s1", "s2", "s3", "s4", "s5", "s6"]) (some ["x"]) none none 20).2
      ⟨20, some ["s1", "s2", "s3", "s4", "s5"], none, none, []⟩ rfl⟩

/- ### C4: neutral default profile when no feature vectors resolve -/

/-- C4: when no track resolves a feature vector, `calculateTasteProfile`
returns (without failing) the documented neutral default scalars — 0.5 for
danceability/energy/valence/acousticness, 0.1 instrumentalness, 0.2 liveness,
0.1 speechiness, tempo 120 — while `preferredGenres` and `preferredArtists`
are still populated from the top artists' genre tags and popularity. -/
theorem calculateTasteProfile_default_on_no_features
    (tracks : List SpotifyTrack) (features : String → Option AudioFeatures)
    (topArtists : List SpotifyArtist)
    (h : ∀ t ∈ tracks, features t.id = none) :
    (calculateTasteProfile tracks features topArtists).avgDanceability = 1/2 ∧
    (calculateTasteProfile tracks features topArtists).avgEnergy = 1/2 ∧
    (calculateTasteProfile tracks features topArtists).avgValence = 1/2 ∧
    (calculateTasteProfile tracks features topArtists).avgAcousticness = 1/2 ∧
    (calculateTasteProfile tracks features topArtists).avgInstrumentalness = 1/10 ∧
    (calculateTasteProfile tracks features topArtists).avgLiveness = 2/10 ∧
    (calculateTasteProfile tracks features topArtists).avgSpeechiness = 1/10 ∧
    (calculateTasteProfile tracks features topArtists).avgTempo = 120 ∧
    (∀ gw ∈ (calculateTasteProfile tracks features topArtists).preferredGenres,
      ∃ a ∈ topArtists.take 10, gw.genre ∈ a.genres ∧ gw.weight = a.popularity) ∧
    (∀ aw ∈ (calculateTasteProfile tracks features topArtists).preferredArtists,
      ∃ a ∈ topArtists, aw.artistId = a.id ∧ aw.weight = a.popularity) := by
  have hv : tracks.filterMap (fun t => features t.id) = [] := by
    rw [List.filterMap_eq_nil_iff]
    exact h
  have hp : calculateTasteProfile tracks features topArtists =
      { avgDanceability := 1/2
        avgEnergy := 1/2
        avgValence := 1/2
        avgAcousticness := 1/2
        avgInstrumentalness := 1/10
        avgLiveness := 2/10
        avgSpeechiness := 1/10
        avgTempo := 120
        preferredGenres :=
          ((topArtists.take 10).flatMap
            (fun a => a.genres.map (fun g => ⟨g, a.popularity⟩))).take 10
        preferredArtists :=
          (topArtists.map (fun a => ⟨a.id, a.popularity⟩)).take 20 } := by
    simp [calculateTasteProfile, hv]
  rw [hp]
  refine ⟨rfl, rfl, rfl, rfl, rfl, rfl, rfl, rfl, ?_, ?_⟩
  · intro gw hgw
    have hmem := List.mem_of_mem_take hgw
    rw [List.mem_flatMap] at hmem
    obtain ⟨a, ha, hmem⟩ := hmem
    rw [List.mem_map] at hmem
    obtain ⟨g, hg, rfl⟩ := hmem
    exact ⟨a, ha, hg, rfl⟩
  · intro aw haw
    have hmem := List.mem_of_mem_take haw
    rw [List.mem_map] at hmem
    obtain ⟨a, ha, rfl⟩ := hmem
    exact ⟨a, ha, rfl, rfl⟩

/-- C4 witness: three liked tracks, none with a resolvable vector, and one top
artist with genre `pop` and popularity 80 — the spec's own scenario. -/
theorem calculateTasteProfile_default_on_no_features_witness :
    (calculateTasteProfile c4tracks c4features c4artists).avgDanceability = 1/2 ∧
    (calculateTasteProfile c4tracks c4features c4artists).avgEnergy = 1/2 ∧
    (calculateTasteProfile c4tracks c4features c4artists).avgValence = 1/2 ∧
    (calculateTasteProfile c4tracks c4features c4artists).avgAcousticness = 1/2 ∧
    (calculateTasteProfile c4tracks c4features c4artists).avgInstrumentalness = 1/10 ∧
    (calculateTasteProfile c4tracks c4features c4artists).avgLiveness = 2/10 ∧
    (calculateTasteProfile c4tracks c4features c4artists).avgSpeechiness = 1/10 ∧
    (calculateTasteProfile c4tracks c4features c4artists).avgTempo = 120 ∧
    (∀ gw ∈ (calculateTasteProfile c4tracks c4features c4artists).preferredGenres,
      ∃ a ∈ c4artists.take 10, gw.genre ∈ a.genres ∧ gw.weight = a.popularity) ∧
    (∀ aw ∈ (calculateTasteProfile c4tracks c4features c4artists).preferredArtists,
      ∃ a ∈ c4artists, aw.artistId = a.id ∧ aw.weight = a.popularity) :=
  calculateTasteProfile_default_on_no_features c4tracks c4features c4artists
    (by decide)

/- ### C9: the returned list never exceeds the requested limit -/

/-- Helper: a capped loop whose body respects the limit keeps the accumulator
within the limit. -/
theorem runCapped_length_le {α : Type} (limit : Nat)
    (f : α → List TrackRecommendation → List TrackRecommendation)
    (hf : ∀ x acc, acc.length < limit → (f x acc).length ≤ limit) :
    ∀ (l : List α) (acc : List TrackRecommendation),
      acc.length ≤ limit → (runCapped limit f l acc).length ≤ limit := by
  intro l
  induction l with
  | nil => intro acc h; simpa [runCapped] using h
  | cons x xs ih =>
    intro acc h
    rw [runCapped]
    by_cases hc : limit ≤ acc.length
    · rw [if_pos hc]; exact h
    · rw [if_neg hc]; exact ih (f x acc) (hf x acc (Nat.lt_of_not_le hc))

/-- Helper: the genre-search fallback generator respects the limit. -/
theorem getSearchBasedRecommendations_length_le (profile : UserMusicProfile)
    (orc : Oracles) (limit : Nat) :
    (getSearchBasedRecommendations profile orc limit).length ≤ limit := by
  apply runCapped_length_le
  · intro gw acc hacc
    apply runCapped_length_le
    · intro t acc2 h2
      simpa using h2
    · exact Nat.le_of_lt hacc
  · simp

/-- C9: on both the similarity-service path (final `slice(0, limit)`) and the
genre-search fallback path (per-push limit check), the returned recommendation
list has length at most the requested limit — for every limit, 0 and 1000
included. -/
theorem recommendations_length_le_limit (lastFmConfigured : Bool)
    (profile : UserMusicProfile) (orc : Oracles)
    (shuffle : List TrackRecommendation → List TrackRecommendation)
    (limit : Nat) :
    (getLastFmRecommendations lastFmConfigured profile orc shuffle limit).length
      ≤ limit := by
  cases lastFmConfigured with
  | false =>
    simpa [getLastFmRecommendations] using
      getSearchBasedRecommendations_length_le profile orc limit
  | true =>
    simp only [getLastFmRecommendations]
    simpa using List.length_take_le limit
      (shuffle (lastFmCandidates profile orc limit).recs)

/- ### C10: undiscoverable preferred artists are silently skipped -/

/-- C10: a preferred artist whose id is carried by no artist entry of the
liked or recent tracks cannot be resolved to a display name, and its
collaborative loop iteration leaves the generator state untouched (no
candidates, no seen-set growth, no break, no error). -/
theorem unresolvable_preferred_artist_skipped
    (limit : Nat) (orc : Oracles) (profile : UserMusicProfile)
    (aw : ArtistWeight) (st : GenState)
    (h : ∀ t ∈ profile.likedTracks ++ profile.recentTracks,
      ∀ a ∈ t.artists, a.id ≠ aw.artistId) :
    findArtistNameById aw.artistId profile = none ∧
    phase1ArtistStep limit profile.userTasteProfile orc profile aw st = (st, false) := by
  have hfind : findArtistNameById aw.artistId profile = none := by
    have hl : ∀ t ∈ profile.likedTracks,
        (t.artists.find? (fun a => a.id = aw.artistId)).map (fun a => a.name) = none := by
      intro t ht
      have := h t (List.mem_append_left _ ht)
      simp only [Option.map_eq_none', List.find?_eq_none]
      intro a ha
      simpa using this a ha
    have hr : ∀ t ∈ profile.recentTracks,
        (t.artists.find? (fun a => a.id = aw.artistId)).map (fun a => a.name) = none := by
      intro t ht
      have := h t (List.mem_append_right _ ht)
      simp only [Option.map_eq_none', List.find?_eq_none]
      intro a ha
      simpa using this a ha
    simp only [findArtistNameById]
    rw [List.findSome?_eq_none_iff.mpr hl, List.findSome?_eq_none_iff.mpr hr]
  exact ⟨hfind, by simp [phase1ArtistStep, hfind]⟩

/-- C10 witness: preferred artist id `a1` appears nowhere in the corpus of
`c10profile`, so its loop iteration is a no-op. -/
theorem unresolvable_preferred_artist_skipped_witness :
    findArtistNameById "a1" c10profile = none ∧
    phase1ArtistStep 20 c10profile.userTasteProfile emptyOracles c10profile
      ⟨"a1", 50⟩ ⟨[], []⟩ = (⟨[], []⟩, false) :=
  unresolvable_preferred_artist_skipped 20 emptyOracles c10profile
    ⟨"a1", 50⟩ ⟨[], []⟩ (by decide)

/- ### C8: genre weighting, ranking and truncation -/

/-- Helper: the first-match lookup on a cons cell. -/
theorem genreWeightOf_cons (y : GenreWeight) (l : List GenreWeight) (h : String) :
    genreWeightOf (y :: l) h = if y.genre = h then y.weight else genreWeightOf l h := by
  by_cases hy : y.genre = h <;>
    simp [genreWeightOf, List.find?_cons_of_pos, List.find?_cons_of_neg, hy]

/-- Helper: bumping the weight of one genre leaves the tag sequence unchanged. -/
theorem genresOf_map_update (p : Nat) (g : String) (acc : List GenreWeight) :
    genresOf (acc.map (fun e => if e.genre = g then ⟨e.genre, e.weight + p⟩ else e)) =
      genresOf acc := by
  induction acc with
  | nil => rfl
  | cons x rest ih =>
    by_cases hx : x.genre = g <;> simp [genresOf, hx] <;>
      simpa [genresOf] using ih

/-- Helper: bumping genre `g` does not change the recorded weight of `h ≠ g`. -/
theorem genreWeightOf_map_update_ne (p : Nat) (g h : String) (hne : h ≠ g)
    (acc : List GenreWeight) :
    genreWeightOf
        (acc.map (fun e => if e.genre = g then ⟨e.genre, e.weight + p⟩ else e)) h =
      genreWeightOf acc h := by
  induction acc with
  | nil => rfl
  | cons x rest ih =>
    rw [List.map_cons, genreWeightOf_cons, genreWeightOf_cons]
    by_cases hx : x.genre = g
    · have hxh : ¬ (x.genre = h) := by rw [hx]; exact fun hh => hne hh.symm
      have hgh : ¬ (g = h) := fun hh => hne hh.symm
      simp [hx, hxh, hgh, ih]
    · by_cases hxh : x.genre = h <;> simp [hx, hxh, hne, ih]

/-- Helper: bumping a present genre adds exactly `p` to its recorded weight. -/
theorem genreWeightOf_map_update_self (p : Nat) (g : String) :
    ∀ (acc : List GenreWeight),
      acc.any (fun e => e.genre = g) = true →
      genreWeightOf
          (acc.map (fun e => if e.genre = g then ⟨e.genre, e.weight + p⟩ else e)) g =
        genreWeightOf acc g + p := by
  intro acc
  induction acc with
  | nil => intro hany; simp at hany
  | cons x rest ih =>
    intro hany
    rw [List.map_cons, genreWeightOf_cons, genreWeightOf_cons]
    by_cases hx : x.genre = g
    · simp [hx]
    · have hrest : rest.any (fun e => e.genre = g) = true := by
        simpa [List.any_cons, hx] using hany
      simp [hx, ih hrest]

/-- Helper: appending a fresh genre entry sets its weight and touches no other. -/
theorem genreWeightOf_append_absent (p : Nat) (g h : String) :
    ∀ (acc : List GenreWeight),
      acc.any (fun e => e.genre = g) = false →
      genreWeightOf (acc ++ [⟨g, p⟩]) h =
        genreWeightOf acc h + (if h = g then p else 0) := by
  intro acc
  induction acc with
  | nil =>
    intro _
    rw [List.nil_append, genreWeightOf_cons]
    by_cases hhg : h = g
    · simp [genreWeightOf, hhg]
    · have hgh : ¬ (g = h) := fun he => hhg he.symm
      simp [genreWeightOf, hgh, hhg]
  | cons x rest ih =>
    intro hab
    have hx : ¬ (x.genre = g) := by
      intro hxg
      simp [List.any_cons, hxg] at hab
    have hrest : rest.any (fun e => e.genre = g) = false := by
      simpa [List.any_cons, hx] using hab
    rw [List.cons_append, genreWeightOf_cons, genreWeightOf_cons]
    by_cases hxh : x.genre = h
    · have hhg : ¬ (h = g) := fun he => hx (by rw [hxh, he])
      simp [hxh, hhg]
    · simp [hxh, ih hrest]

/-- Helper: one `addGenre` step adds `p` to genre `g` and nothing else. -/
theorem genreWeightOf_addGenre (p : Nat) (acc : List GenreWeight) (g h : String) :
    genreWeightOf (addGenre p acc g) h =
      genreWeightOf acc h + (if h = g then p else 0) := by
  by_cases hany : acc.any (fun e => e.genre = g) = true
  · rw [addGenre, if_pos hany]
    by_cases hhg : h = g
    · subst hhg
      rw [genreWeightOf_map_update_self p h acc hany]
      simp
    · rw [genreWeightOf_map_update_ne p g h hhg acc]
      simp [hhg]
  · have hf : acc.any (fun e => e.genre = g) = false := by
      simpa using hany
    rw [addGenre, if_neg hany]
    exact genreWeightOf_append_absent p g h acc hf

/-- Helper: `addGenre` preserves distinctness of the genre tags. -/
theorem genresOf_addGenre_nodup (p : Nat) (g : String) (acc : List GenreWeight)
    (hnd : (genresOf acc).Nodup) : (genresOf (addGenre p acc g)).Nodup := by
  by_cases hany : acc.any (fun e => e.genre = g) = true
  · rw [addGenre, if_pos hany, genresOf_map_update]
    exact hnd
  · rw [addGenre, if_neg hany]
    have hg : g ∉ genresOf acc := by
      intro hmem
      rw [genresOf, List.mem_map] at hmem
      obtain ⟨e, he, hge⟩ := hmem
      exact hany (List.any_eq_true.mpr ⟨e, he, by simp [hge]⟩)
    have hform : genresOf (acc ++ [⟨g, p⟩]) = genresOf acc ++ [g] := by
      simp [genresOf]
    rw [hform]
    have hperm : List.Perm (genresOf acc ++ [g]) (g :: genresOf acc) :=
      List.perm_append_singleton g (genresOf acc)
    rw [hperm.nodup_iff, List.nodup_cons]
    exact ⟨hg, hnd⟩

/-- Helper: folding one artist's genre tags adds `count * popularity` per tag. -/
theorem genresFold_weightOf (p : Nat) :
    ∀ (gs : List String) (acc : List GenreWeight) (h : String),
      genreWeightOf (gs.foldl (addGenre p) acc) h =
        genreWeightOf acc h + gs.count h * p := by
  intro gs
  induction gs with
  | nil => intro acc h; simp
  | cons g gs ih =>
    intro acc h
    rw [List.foldl_cons, ih, genreWeightOf_addGenre]
    by_cases hhg : h = g
    · subst hhg
      simp [List.count_cons, Nat.add_mul]
      omega
    · simp [List.count_cons, hhg]

/-- Helper: the genre-tag fold preserves distinctness. -/
theorem genresFold_nodup (p : Nat) :
    ∀ (gs : List String) (acc : List GenreWeight),
      (genresOf acc).Nodup → (genresOf (gs.foldl (addGenre p) acc)).Nodup := by
  intro gs
  induction gs with
  | nil => intro acc h; simpa using h
  | cons g gs ih =>
    intro acc h
    rw [List.foldl_cons]
    exact ih _ (genresOf_addGenre_nodup p g acc h)

/-- Helper: the artist fold accumulates exactly the spec's per-genre total. -/
theorem artistsFold_weightOf :
    ∀ (topArtists : List SpotifyArtist) (acc : List GenreWeight) (h : String),
      genreWeightOf
          (topArtists.foldl
            (fun acc a => a.genres.foldl (addGenre a.popularity) acc) acc) h =
        genreWeightOf acc h + genreTotal topArtists h := by
  intro topArtists
  induction topArtists with
  | nil => intro acc h; simp [genreTotal]
  | cons a as ih =>
    intro acc h
    rw [List.foldl_cons, ih, genresFold_weightOf]
    simp [genreTotal]
    omega

/-- Helper: the artist fold preserves distinctness of the genre tags. -/
theorem artistsFold_nodup :
    ∀ (topArtists : List SpotifyArtist) (acc : List GenreWeight),
      (genresOf acc).Nodup →
      (genresOf (topArtists.foldl
        (fun acc a => a.genres.foldl (addGenre a.popularity) acc) acc)).Nodup := by
  intro topArtists
  induction topArtists with
  | nil => intro acc h; simpa using h
  | cons a as ih =>
    intro acc h
    rw [List.foldl_cons]
    exact ih _ (genresFold_nodup a.popularity a.genres acc h)

/-- Helper: the accumulated map records exactly the spec's per-genre total. -/
theorem genreCounts_weightOf (topArtists : List SpotifyArtist) (h : String) :
    genreWeightOf (genreCounts topArtists) h = genreTotal topArtists h := by
  have hz : genreWeightOf ([] : List GenreWeight) h = 0 := rfl
  have := artistsFold_weightOf topArtists [] h
  rw [hz] at this
  simpa [genreCounts] using this

/-- Helper: the accumulated map carries pairwise-distinct genre tags. -/
theorem genreCounts_nodup (topArtists : List SpotifyArtist) :
    (genresOf (genreCounts topArtists)).Nodup :=
  artistsFold_nodup topArtists [] (by simp [genresOf])

/-- Helper: in a tag-distinct association list every entry records its own
looked-up weight. -/
theorem weight_eq_weightOf_of_nodup :
    ∀ (acc : List GenreWeight), (genresOf acc).Nodup →
      ∀ e ∈ acc, e.weight = genreWeightOf acc e.genre := by
  intro acc
  induction acc with
  | nil => intro _ e he; simp at he
  | cons x rest ih =>
    intro hnd e he
    obtain ⟨hne, hndr⟩ :
        (∀ y ∈ rest, ¬ y.genre = x.genre) ∧
          (List.map (fun e => e.genre) rest).Nodup := by
      simpa [genresOf, List.nodup_cons] using hnd
    rw [genreWeightOf_cons]
    rcases List.mem_cons.mp he with rfl | hrest
    · simp
    · have hx : ¬ (x.genre = e.genre) := fun hxe => hne e hrest (hxe ▸ rfl)
      rw [if_neg hx]
      exact ih (by simpa [genresOf] using hndr) e hrest

/-- Helper: stable descending insertion is a permutation with appending. -/
theorem insertDescBy_perm (w : GenreWeight) :
    ∀ l : List GenreWeight, List.Perm (insertDescBy w l) (w :: l) := by
  intro l
  induction l with
  | nil => exact List.Perm.refl _
  | cons x xs ih =>
    rw [insertDescBy]
    by_cases hc : x.weight < w.weight
    · rw [if_pos hc]
    · rw [if_neg hc]
      exact (ih.cons x).trans (List.Perm.swap w x xs)

/-- Helper: the descending sort permutes its input. -/
theorem sortByWeightDesc_perm (l : List GenreWeight) :
    List.Perm (sortByWeightDesc l) l := by
  induction l with
  | nil => exact List.Perm.refl _
  | cons x xs ih =>
    show List.Perm (insertDescBy x (sortByWeightDesc xs)) (x :: xs)
    exact (insertDescBy_perm x (sortByWeightDesc xs)).trans (ih.cons x)

/-- Helper: membership in the sorted list comes from the input. -/
theorem mem_sortByWeightDesc {e : GenreWeight} {l : List GenreWeight}
    (h : e ∈ sortByWeightDesc l) : e ∈ l :=
  ((sortByWeightDesc_perm l).mem_iff).mp h

/-- Helper: the sortedness test on a cons cell, via the head weight. -/
theorem isSortedDescW_cons (a : GenreWeight) (l : List GenreWeight) :
    isSortedDescW (a :: l) =
      (decide (headW l a.weight ≤ a.weight) && isSortedDescW l) := by
  cases l with
  | nil => simp [isSortedDescW, headW]
  | cons b rest => simp [isSortedDescW, headW]

/-- Helper: inserting keeps the head weight at the inserted or old head. -/
theorem headW_insertDescBy (w : GenreWeight) (l : List GenreWeight) (d : Nat) :
    headW (insertDescBy w l) d = w.weight ∨ headW (insertDescBy w l) d = headW l d := by
  cases l with
  | nil => left; rfl
  | cons x xs =>
    rw [insertDescBy]
    by_cases hc : x.weight < w.weight
    · rw [if_pos hc]; left; rfl
    · rw [if_neg hc]; right; rfl

/-- Helper: descending insertion preserves descending sortedness. -/
theorem isSortedDescW_insertDescBy (w : GenreWeight) :
    ∀ l : List GenreWeight,
      isSortedDescW l = true → isSortedDescW (insertDescBy w l) = true := by
  intro l
  induction l with
  | nil => intro _; rfl
  | cons x xs ih =>
    intro hs
    obtain ⟨h1, h2⟩ : headW xs x.weight ≤ x.weight ∧ isSortedDescW xs = true := by
      simpa [isSortedDescW_cons, Bool.and_eq_true] using hs
    rw [insertDescBy]
    by_cases hc : x.weight < w.weight
    · rw [if_pos hc, isSortedDescW_cons]
      have hh : headW (x :: xs) w.weight ≤ w.weight := Nat.le_of_lt hc
      simp only [Bool.and_eq_true, decide_eq_true_eq]
      exact ⟨hh, hs⟩
    · rw [if_neg hc, isSortedDescW_cons]
      have hw : w.weight ≤ x.weight := Nat.le_of_not_lt hc
      have hhead : headW (insertDescBy w xs) x.weight ≤ x.weight := by
        rcases headW_insertDescBy w xs x.weight with he | he
        · rw [he]; exact hw
        · rw [he]; exact h1
      simp only [Bool.and_eq_true, decide_eq_true_eq]
      exact ⟨hhead, ih h2⟩

/-- Helper: the descending sort produces a descending-sorted list. -/
theorem isSortedDescW_sortByWeightDesc (l : List GenreWeight) :
    isSortedDescW (sortByWeightDesc l) = true := by
  induction l with
  | nil => rfl
  | cons x xs ih =>
    show isSortedDescW (insertDescBy x (sortByWeightDesc xs)) = true
    exact isSortedDescW_insertDescBy x (sortByWeightDesc xs) ih

/-- Helper: a truncation's head weight is the old head weight or the default. -/
theorem headW_take (l : List GenreWeight) (n : Nat) (d : Nat) :
    headW (l.take n) d = d ∨ headW (l.take n) d = headW l d := by
  cases l with
  | nil => left; simp [headW]
  | cons x xs =>
    cases n with
    | zero => left; rfl
    | succ m => right; rfl

/-- Helper: truncation preserves descending sortedness. -/
theorem isSortedDescW_take :
    ∀ (l : List GenreWeight) (n : Nat),
      isSortedDescW l = true → isSortedDescW (l.take n) = true := by
  intro l
  induction l with
  | nil => intro n _; simp [isSortedDescW]
  | cons x xs ih =>
    intro n hs
    obtain ⟨h1, h2⟩ : headW xs x.weight ≤ x.weight ∧ isSortedDescW xs = true := by
      simpa [isSortedDescW_cons, Bool.and_eq_true] using hs
    cases n with
    | zero => rfl
    | succ m =>
      rw [List.take_succ_cons, isSortedDescW_cons]
      have hhead : headW (xs.take m) x.weight ≤ x.weight := by
        rcases headW_take xs m x.weight with he | he
        · rw [he]
        · rw [he]; exact h1
      simp only [Bool.and_eq_true, decide_eq_true_eq]
      exact ⟨hhead, ih m h2⟩

/-- C8 counterexample: on the zero-feature-vector fallback path the returned
`preferredGenres` is the un-accumulated, un-ranked flat-map of the top artists'
genre tags — here `[ambient@10, breakcore@90]`, which differs from the
accumulate-rank-truncate recipe and is not weight-descending. -/
theorem preferredGenres_fallback_unranked_counterexample :
    (calculateTasteProfile [] (fun _ => none) c8artists).preferredGenres ≠
      (sortByWeightDesc (genreCounts c8artists)).take 10 ∧
    isSortedDescW
      (calculateTasteProfile [] (fun _ => none) c8artists).preferredGenres = false := by
  exact ⟨by decide, by decide⟩

/-- C8 (amended): for every taste profile computed from at least one resolved
feature vector, `preferredGenres` is weight-descending, at most 10 long, has
pairwise-distinct genre tags, and records for each genre exactly the
accumulated weight (each top artist contributes its popularity per occurrence
of the tag); the zero-feature-vector fallback path instead flat-maps the first
10 artists' tags without accumulation or ranking. -/
theorem preferredGenres_ranked_on_main_path
    (tracks : List SpotifyTrack) (features : String → Option AudioFeatures)
    (topArtists : List SpotifyArtist)
    (h : tracks.filterMap (fun t => features t.id) ≠ []) :
    isSortedDescW (calculateTasteProfile tracks features topArtists).preferredGenres
      = true ∧
    (calculateTasteProfile tracks features topArtists).preferredGenres.length ≤ 10 ∧
    (genresOf (calculateTasteProfile tracks features topArtists).preferredGenres).Nodup ∧
    ∀ e ∈ (calculateTasteProfile tracks features topArtists).preferredGenres,
      e.weight = genreTotal topArtists e.genre := by
  have hlen : ¬ ((tracks.filterMap (fun t => features t.id)).length = 0) := by
    simpa [List.length_eq_zero] using h
  have hpg : (calculateTasteProfile tracks features topArtists).preferredGenres =
      (sortByWeightDesc (genreCounts topArtists)).take 10 := by
    simp [calculateTasteProfile, hlen]
  rw [hpg]
  refine ⟨isSortedDescW_take _ 10 (isSortedDescW_sortByWeightDesc _),
    List.length_take_le 10 _, ?_, ?_⟩
  · have hnd : (genresOf (sortByWeightDesc (genreCounts topArtists))).Nodup := by
      have hperm : List.Perm (genresOf (sortByWeightDesc (genreCounts topArtists)))
          (genresOf (genreCounts topArtists)) :=
        (sortByWeightDesc_perm _).map _
      exact (hperm.nodup_iff).mpr (genreCounts_nodup topArtists)
    have hsub : List.Sublist
        (genresOf ((sortByWeightDesc (genreCounts topArtists)).take 10))
        (genresOf (sortByWeightDesc (genreCounts topArtists))) :=
      (List.take_sublist 10 _).map _
    exact List.Nodup.sublist hsub hnd
  · intro e he
    have hmem : e ∈ genreCounts topArtists :=
      mem_sortByWeightDesc (List.mem_of_mem_take he)
    rw [weight_eq_weightOf_of_nodup (genreCounts topArtists)
      (genreCounts_nodup topArtists) e hmem]
    exact genreCounts_weightOf topArtists e.genre

/- ### C2: deduplication and liked/recent exclusion -/

/-- Helper: pushing a candidate with an unseen key preserves the dedup
invariant. -/
theorem SeenInv.push {seen0 : List String} {st : GenState} (hI : SeenInv seen0 st)
    {r : TrackRecommendation} {key : String} (hkey : recKey r = key)
    (hnew : key ∉ st.seen) :
    SeenInv seen0 { seen := key :: st.seen, recs := st.recs ++ [r] } := by
  obtain ⟨hA, hB, hC, hD⟩ := hI
  refine ⟨?_, ?_, ?_, ?_⟩
  · simp only [List.map_append, List.map_cons, List.map_nil]
    have hperm : List.Perm (st.recs.map recKey ++ [recKey r])
        (recKey r :: st.recs.map recKey) :=
      List.perm_append_singleton _ _
    rw [hperm.nodup_iff, List.nodup_cons]
    refine ⟨?_, hA⟩
    intro hmem
    rw [List.mem_map] at hmem
    obtain ⟨r', hr', hkr⟩ := hmem
    have hseen := hB r' hr'
    rw [hkr, hkey] at hseen
    exact hnew hseen
  · intro r' hr'
    rcases List.mem_append.mp hr' with h1 | h2
    · exact List.mem_cons_of_mem _ (hB r' h1)
    · have hr2 : r' = r := by simpa using h2
      subst hr2
      rw [hkey]
      exact List.mem_cons_self _ _
  · intro k hk
    exact List.mem_cons_of_mem _ (hC k hk)
  · intro r' hr'
    rcases List.mem_append.mp hr' with h1 | h2
    · exact hD r' h1
    · have hr2 : r' = r := by simpa using h2
      subst hr2
      rw [hkey]
      intro hk0
      exact hnew (hC key hk0)

/-- Helper: recording a key as seen (without pushing) preserves the invariant. -/
theorem SeenInv.addSeen {seen0 : List String} {st : GenState}
    (hI : SeenInv seen0 st) (k : String) :
    SeenInv seen0 { st with seen := k :: st.seen } := by
  obtain ⟨hA, hB, hC, hD⟩ := hI
  exact ⟨hA, fun r hr => List.mem_cons_of_mem _ (hB r hr),
    fun k' hk' => List.mem_cons_of_mem _ (hC k' hk'), hD⟩

/-- Helper: a break-after loop whose body preserves the invariant preserves it. -/
theorem runBreakAfter_inv {α : Type} {seen0 : List String}
    (f : α → GenState → GenState × Bool) :
    ∀ xs : List α, (∀ x ∈ xs, ∀ st, SeenInv seen0 st → SeenInv seen0 (f x st).1) →
      ∀ st, SeenInv seen0 st → SeenInv seen0 (runBreakAfter f xs st) := by
  intro xs
  induction xs with
  | nil => intro _ st h; simpa [runBreakAfter] using h
  | cons x xs ih =>
    intro hf st h
    simp only [runBreakAfter]
    by_cases hb : (f x st).2 = true
    · rw [if_pos hb]
      exact hf x (List.mem_cons_self x xs) st h
    · rw [if_neg hb]
      exact ih (fun y hy => hf y (List.mem_cons_of_mem x hy)) _
        (hf x (List.mem_cons_self x xs) st h)

/-- Helper: a break-before loop whose body preserves the invariant preserves it. -/
theorem runBreakBefore_inv {α : Type} {seen0 : List String} (limit : Nat)
    (f : α → GenState → GenState) :
    ∀ xs : List α, (∀ x ∈ xs, ∀ st, SeenInv seen0 st → SeenInv seen0 (f x st)) →
      ∀ st, SeenInv seen0 st → SeenInv seen0 (runBreakBefore limit f xs st) := by
  intro xs
  induction xs with
  | nil => intro _ st h; simpa [runBreakBefore] using h
  | cons x xs ih =>
    intro hf st h
    simp only [runBreakBefore]
    by_cases hb : limit ≤ st.recs.length
    · rw [if_pos hb]; exact h
    · rw [if_neg hb]
      exact ih (fun y hy => hf y (List.mem_cons_of_mem x hy)) _
        (hf x (List.mem_cons_self x xs) st h)

/-- Helper: the innermost collaborative body preserves the invariant (its push
is guarded by the seen-set check on the pushed track's own key). -/
theorem phase1TrackStep_inv {seen0 : List String} (limit : Nat)
    (taste : TasteProfile) (orc : Oracles) (artistName : String)
    (lfa : LastFmArtist) (t : SpotifyTrack) (st : GenState)
    (hI : SeenInv seen0 st) :
    SeenInv seen0 (phase1TrackStep limit taste orc artistName lfa t st).1 := by
  simp only [phase1TrackStep]
  by_cases hc : st.seen.contains (trackKey t) = true
  · simp only [hc, if_pos]
    exact hI
  · simp only [hc, if_neg, Bool.false_eq_true, not_false_eq_true, if_false]
    exact SeenInv.push hI rfl (by simpa using hc)

/-- Helper: the middle collaborative body preserves the invariant. -/
theorem phase1SimilarArtistStep_inv {seen0 : List String} (limit : Nat)
    (taste : TasteProfile) (orc : Oracles) (artistName : String)
    (lfa : LastFmArtist) (st : GenState) (hI : SeenInv seen0 st) :
    SeenInv seen0 (phase1SimilarArtistStep limit taste orc artistName lfa st).1 := by
  simp only [phase1SimilarArtistStep]
  exact runBreakAfter_inv _ _
    (fun tr _ st' h' => phase1TrackStep_inv limit taste orc artistName lfa tr st' h')
    st hI

/-- Helper: the outer collaborative body preserves the invariant. -/
theorem phase1ArtistStep_inv {seen0 : List String} (limit : Nat)
    (taste : TasteProfile) (orc : Oracles) (profile : UserMusicProfile)
    (aw : ArtistWeight) (st : GenState) (hI : SeenInv seen0 st) :
    SeenInv seen0 (phase1ArtistStep limit taste orc profile aw st).1 := by
  simp only [phase1ArtistStep]
  cases hf : findArtistNameById aw.artistId profile with
  | none => exact hI
  | some name =>
    by_cases hname : name = ""
    · simp only [hname, if_pos]
      exact hI
    · simp only [hname, if_neg, not_false_eq_true, if_false]
      exact runBreakAfter_inv _ _
        (fun lfa _ st' h' => phase1SimilarArtistStep_inv limit taste orc name lfa st' h')
        st hI

/-- Helper: the innermost track-similarity body preserves the invariant, given
that the exact search resolves only tracks whose own key is the searched
similarity-service key. -/
theorem phase2LastFmTrackStep_inv {seen0 : List String} (taste : TasteProfile)
    (orc : Oracles) (origArtist origTrack : String) (lt : LastFmTrack)
    (st : GenState)
    (hs : ∀ s ∈ orc.searchTracks (exactQuery lt.artistName lt.name) 1,
      trackKey s = lastFmTrackKey lt)
    (hI : SeenInv seen0 st) :
    SeenInv seen0 (phase2LastFmTrackStep taste orc origArtist origTrack lt st) := by
  simp only [phase2LastFmTrackStep]
  by_cases hc : st.seen.contains (lastFmTrackKey lt) = true
  · simp only [hc, if_pos]
    exact hI
  · simp only [hc, if_neg, Bool.false_eq_true, not_false_eq_true, if_false]
    cases hsr : orc.searchTracks (exactQuery lt.artistName lt.name) 1 with
    | nil => exact hI.addSeen _
    | cons s rest =>
      have hks : trackKey s = lastFmTrackKey lt :=
        hs s (by rw [hsr]; exact List.mem_cons_self _ _)
      exact SeenInv.push hI hks (by simpa using hc)

/-- Helper: the outer track-similarity body preserves the invariant. -/
theorem phase2LikedStep_inv {seen0 : List String} (limit : Nat)
    (taste : TasteProfile) (orc : Oracles) (t : SpotifyTrack) (st : GenState)
    (hs : ∀ lt ∈ orc.similarTracks (headArtistName t) t.name 5,
      ∀ s ∈ orc.searchTracks (exactQuery lt.artistName lt.name) 1,
        trackKey s = lastFmTrackKey lt)
    (hI : SeenInv seen0 st) :
    SeenInv seen0 (phase2LikedStep limit taste orc t st) := by
  simp only [phase2LikedStep]
  by_cases hskip : headArtistName t = "" ∨ t.name = ""
  · simp only [hskip, if_pos]
    exact hI
  · simp only [hskip, if_neg, not_false_eq_true, if_false]
    exact runBreakBefore_inv limit _ _
      (fun lt hlt st' h' =>
        phase2LastFmTrackStep_inv taste orc (headArtistName t) t.name lt st'
          (hs lt hlt) h')
      st hI

/-- Helper: the whole candidate-accumulation phase satisfies the dedup
invariant over the liked/recent key seed. -/
theorem lastFmCandidates_inv (profile : UserMusicProfile) (orc : Oracles)
    (limit : Nat)
    (hs : ∀ t ∈ profile.likedTracks.take 3,
      ∀ lt ∈ orc.similarTracks (headArtistName t) t.name 5,
      ∀ s ∈ orc.searchTracks (exactQuery lt.artistName lt.name) 1,
        trackKey s = lastFmTrackKey lt) :
    SeenInv (profile.likedTracks.map trackKey ++ profile.recentTracks.map trackKey)
      (lastFmCandidates profile orc limit) := by
  have h0 : SeenInv
      (profile.likedTracks.map trackKey ++ profile.recentTracks.map trackKey)
      { seen := profile.likedTracks.map trackKey ++ profile.recentTracks.map trackKey
        recs := [] } :=
    ⟨by simp, by simp, fun k hk => hk, by simp⟩
  have h1 := runBreakAfter_inv
    (phase1ArtistStep limit profile.userTasteProfile orc profile)
    (profile.userTasteProfile.preferredArtists.take 5)
    (fun aw _ st h =>
      phase1ArtistStep_inv limit profile.userTasteProfile orc profile aw st h)
    _ h0
  simp only [lastFmCandidates]
  split
  · exact runBreakBefore_inv limit _ _
      (fun t ht st h =>
        phase2LikedStep_inv limit profile.userTasteProfile orc t st (hs t ht) h)
      _ h1
  · exact h1

/-- C2 counterexample: on the genre-search fallback path (similarity service
unconfigured) there is no deduplication at all — two genre searches returning
the same catalog track produce a final list in which id `t0` appears twice. -/
theorem searchFallback_duplicate_id_counterexample :
    ((getLastFmRecommendations false dupProfile dupOracles (fun l => l) 5).map
      (fun r => r.track.id)) = ["t0", "t0"] ∧
    ¬ ((getLastFmRecommendations false dupProfile dupOracles (fun l => l) 5).map
      (fun r => r.track.id)).Nodup :=
  ⟨by decide, by decide⟩

/-- C2 (amended): on the similarity-service path — with the final randomised
double sort modelled as an arbitrary permutation — the returned list repeats no
catalog track id and contains no liked/recent track id, provided the exact
(artist, track) searches of the extension phase resolve only tracks carrying
the searched name key, and equal catalog ids imply equal lowercased
artist–track name keys (the key the code actually dedups on); the genre-search
fallback path performs no deduplication or exclusion (see the counterexample). -/
theorem lastFm_recommendations_no_duplicate_ids
    (profile : UserMusicProfile) (orc : Oracles)
    (shuffle : List TrackRecommendation → List TrackRecommendation) (limit : Nat)
    (hshuffle : List.Perm (shuffle (lastFmCandidates profile orc limit).recs)
      (lastFmCandidates profile orc limit).recs)
    (hsearch : ∀ t ∈ profile.likedTracks.take 3,
      ∀ lt ∈ orc.similarTracks (headArtistName t) t.name 5,
      ∀ s ∈ orc.searchTracks (exactQuery lt.artistName lt.name) 1,
        trackKey s = lastFmTrackKey lt)
    (hidkey : ∀ r1 ∈ getLastFmRecommendations true profile orc shuffle limit,
      ∀ r2 ∈ getLastFmRecommendations true profile orc shuffle limit,
        r1.track.id = r2.track.id → recKey r1 = recKey r2)
    (hidliked : ∀ r ∈ getLastFmRecommendations true profile orc shuffle limit,
      ∀ u ∈ profile.likedTracks ++ profile.recentTracks,
        r.track.id = u.id → recKey r = trackKey u) :
    ((getLastFmRecommendations true profile orc shuffle limit).map
      (fun r => r.track.id)).Nodup ∧
    ∀ r ∈ getLastFmRecommendations true profile orc shuffle limit,
      ∀ u ∈ profile.likedTracks ++ profile.recentTracks, r.track.id ≠ u.id := by
  have hInv := lastFmCandidates_inv profile orc limit hsearch
  have hout : getLastFmRecommendations true profile orc shuffle limit =
      (shuffle (lastFmCandidates profile orc limit).recs).take limit := by
    simp [getLastFmRecommendations]
  have hkeysN :
      ((getLastFmRecommendations true profile orc shuffle limit).map recKey).Nodup := by
    rw [hout]
    have h1 : ((shuffle (lastFmCandidates profile orc limit).recs).map recKey).Nodup :=
      ((hshuffle.map recKey).nodup_iff).mpr hInv.1
    exact List.Nodup.sublist ((List.take_sublist _ _).map recKey) h1
  have hmemc : ∀ r ∈ getLastFmRecommendations true profile orc shuffle limit,
      r ∈ (lastFmCandidates profile orc limit).recs := by
    intro r hr
    rw [hout] at hr
    exact hshuffle.mem_iff.mp (List.mem_of_mem_take hr)
  have hnot0 : ∀ r ∈ getLastFmRecommendations true profile orc shuffle limit,
      recKey r ∉
        profile.likedTracks.map trackKey ++ profile.recentTracks.map trackKey :=
    fun r hr => hInv.2.2.2 r (hmemc r hr)
  constructor
  · have hpw : (getLastFmRecommendations true profile orc shuffle limit).Pairwise
        (fun a b => recKey a ≠ recKey b) := List.pairwise_map.mp hkeysN
    have hpw2 : (getLastFmRecommendations true profile orc shuffle limit).Pairwise
        (fun a b => a.track.id ≠ b.track.id) :=
      hpw.imp_of_mem (fun ha hb hkne hid => hkne (hidkey _ ha _ hb hid))
    exact List.pairwise_map.mpr hpw2
  · intro r hr u hu hid
    have hkey := hidliked r hr u hu hid
    have hu0 : trackKey u ∈
        profile.likedTracks.map trackKey ++ profile.recentTracks.map trackKey := by
      rcases List.mem_append.mp hu with h1 | h2
      · exact List.mem_append_left _ (List.mem_map_of_mem _ h1)
      · exact List.mem_append_right _ (List.mem_map_of_mem _ h2)
    rw [← hkey] at hu0
    exact hnot0 r hr hu0

/-- C2 witness: a listener with one liked track and one preferred artist; the
similarity service surfaces one similar artist whose search yields one fresh
track; all hypotheses hold and the output carries one unrepeated id. -/
theorem lastFm_recommendations_no_duplicate_ids_witness :
    ((getLastFmRecommendations true w2profile w2oracles (fun l => l) 10).map
      (fun r => r.track.id)).Nodup ∧
    ∀ r ∈ getLastFmRecommendations true w2profile w2oracles (fun l => l) 10,
      ∀ u ∈ w2profile.likedTracks ++ w2profile.recentTracks, r.track.id ≠ u.id :=
  lastFm_recommendations_no_duplicate_ids w2profile w2oracles (fun l => l) 10
    (List.Perm.refl _) (by decide) (by decide) (by decide)

/-- C8 witness: a profile computed from one resolved vector over three top
artists with an overlapping `rock` tag satisfies the ranking properties. -/
theorem preferredGenres_ranked_on_main_path_witness :
    isSortedDescW
      (calculateTasteProfile [sampleTrack] c8features c8mainArtists).preferredGenres
      = true ∧
    (calculateTasteProfile [sampleTrack] c8features c8mainArtists).preferredGenres.length
      ≤ 10 ∧
    (genresOf
      (calculateTasteProfile [sampleTrack] c8features c8mainArtists).preferredGenres).Nodup ∧
    ∀ e ∈ (calculateTasteProfile [sampleTrack] c8features c8mainArtists).preferredGenres,
      e.weight = genreTotal c8mainArtists e.genre :=
  preferredGenres_ranked_on_main_path [sampleTrack] c8features c8mainArtists
    (by decide)

end Refrain
